import Mathlib

/-!
Verification of the EnerShift scoring engine (EnerShiftDashboard.tsx and
EnhancedFeatures.tsx), shallowly embedded in Lean 4.  TypeScript numbers are
modelled as exact rationals (ℚ); all the verified formulas are plain
arithmetic and threshold comparisons, translated directly from the source.
-/

namespace EnerShift

/-- One channel of the `EnergyData` record (the `solar` or `wind` field):
current, average and peak values plus the recent-history sample series. -/
structure EnergyChannel where
  current : ℚ
  average : ℚ
  peak : ℚ
  data : List (String × ℚ)
deriving DecidableEq

/-- The `EnergyData` interface of EnerShiftDashboard.tsx. -/
structure EnergyData where
  solar : EnergyChannel
  wind : EnergyChannel
deriving DecidableEq

/-- The `BatteryState` interface of EnerShiftDashboard.tsx. -/
structure BatteryState where
  capacity : ℚ
  currentCharge : ℚ
  percentage : ℚ
  runtime : ℚ
deriving DecidableEq

/-- One appliance entry of the `EnergyConsumption` interface. -/
structure Appliance where
  name : String
  power : ℚ
  hours : ℚ
deriving DecidableEq

/-- The `EnergyConsumption` interface of EnerShiftDashboard.tsx. -/
structure EnergyConsumption where
  dailyDemand : ℚ
  peakHours : String
  appliances : List Appliance
deriving DecidableEq

/-- The `CostAnalysis` interface (shared by both source files). -/
structure CostAnalysis where
  gridCost : ℚ
  renewableSavings : ℚ
  paybackPeriod : ℚ
  annualSavings : ℚ
deriving DecidableEq

/-- The `CarbonFootprint` interface (shared by both source files). -/
structure CarbonFootprint where
  currentEmissions : ℚ
  renewableReduction : ℚ
  annualSavings : ℚ
  treesEquivalent : ℚ
deriving DecidableEq

/-- The `LocationData` interface of EnerShiftDashboard.tsx. -/
structure LocationData where
  latitude : ℚ
  longitude : ℚ
  city : String
  region : String
  country : String
deriving DecidableEq

/-- The `FeasibilityResult` interface of EnerShiftDashboard.tsx.  The `icon`
field is a renderable icon reference chosen from the same comparison as
`status`; being a pure presentation artifact it is not modelled. -/
structure FeasibilityResult where
  status : String
  score : ℕ
  reason : String
deriving DecidableEq

/-- Solar band of `calculateFeasibility`: points added and reason pushed for
the `solar.average` thresholds (lines 436-445 of EnerShiftDashboard.tsx). -/
def solarBand (s : EnergyChannel) : ℕ × String :=
  if s.average > 6 then (40, "excellent solar availability")
  else if s.average > 4 then (25, "good solar potential")
  else (10, "limited solar resources")

/-- Wind band of `calculateFeasibility` (`wind.average` thresholds). -/
def windBand (w : EnergyChannel) : ℕ × String :=
  if w.average > 5 then (30, "strong wind resources")
  else if w.average > 3 then (20, "moderate wind potential")
  else (5, "low wind availability")

/-- Battery-runtime band of `calculateFeasibility` (`battery.runtime`
thresholds). -/
def batteryBand (b : BatteryState) : ℕ × String :=
  if b.runtime > 12 then (20, "sufficient battery capacity")
  else if b.runtime > 6 then (15, "adequate battery runtime")
  else (5, "limited battery capacity")

/-- Reliability bonus of `calculateFeasibility`: +10 with a reason when a
peak threshold is exceeded, otherwise nothing. -/
def reliabilityBonus (d : EnergyData) : ℕ × List String :=
  if d.solar.peak > 7 ∨ d.wind.peak > 6 then (10, ["reliable energy peaks"])
  else (0, [])

/-- Status mapping at the end of `calculateFeasibility`:
score ≥ 80 → optimal, score ≥ 60 → moderate, else not-recommended. -/
def statusOf (score : ℕ) : String :=
  if score ≥ 80 then "optimal"
  else if score ≥ 60 then "moderate"
  else "not-recommended"

/-- The body of `calculateFeasibility` (EnerShiftDashboard.tsx lines
428-498) on present data: sequential accumulation of the four scoring
bands, reasons joined with a comma for display. -/
def calculateFeasibilityOf (d : EnergyData) (b : BatteryState) : FeasibilityResult :=
  let sb := solarBand d.solar
  let wb := windBand d.wind
  let bb := batteryBand b
  let rel := reliabilityBonus d
  let score := sb.1 + wb.1 + bb.1 + rel.1
  let reasons := [sb.2, wb.2, bb.2] ++ rel.2
  { status := statusOf score, score := score, reason := String.intercalate ", " reasons }

lemma solarBand_cases (s : EnergyChannel) :
    (solarBand s).1 = 40 ∨ (solarBand s).1 = 25 ∨ (solarBand s).1 = 10 := by
  unfold solarBand; split_ifs <;> simp

lemma windBand_cases (w : EnergyChannel) :
    (windBand w).1 = 30 ∨ (windBand w).1 = 20 ∨ (windBand w).1 = 5 := by
  unfold windBand; split_ifs <;> simp

lemma batteryBand_cases (b : BatteryState) :
    (batteryBand b).1 = 20 ∨ (batteryBand b).1 = 15 ∨ (batteryBand b).1 = 5 := by
  unfold batteryBand; split_ifs <;> simp

lemma reliabilityBonus_cases (d : EnergyData) :
    (reliabilityBonus d).1 = 10 ∨ (reliabilityBonus d).1 = 0 := by
  unfold reliabilityBonus; split_ifs <;> simp

lemma calculateFeasibilityOf_score (d : EnergyData) (b : BatteryState) :
    (calculateFeasibilityOf d b).score =
      (solarBand d.solar).1 + (windBand d.wind).1 + (batteryBand b).1 +
        (reliabilityBonus d).1 := rfl

lemma calculateFeasibilityOf_status (d : EnergyData) (b : BatteryState) :
    (calculateFeasibilityOf d b).status = statusOf (calculateFeasibilityOf d b).score := rfl

lemma statusOf_optimal_iff (n : ℕ) : statusOf n = "optimal" ↔ 80 ≤ n := by
  unfold statusOf
  split_ifs with h1 h2 <;> simp_all

lemma statusOf_moderate_iff (n : ℕ) : statusOf n = "moderate" ↔ 60 ≤ n ∧ n < 80 := by
  unfold statusOf
  split_ifs with h1 h2 <;> simp_all <;> omega

lemma statusOf_notRecommended_iff (n : ℕ) :
    statusOf n = "not-recommended" ↔ n < 60 := by
  unfold statusOf
  split_ifs with h1 h2 <;> simp_all
  omega

/-- Claim C1: for every snapshot and battery state the feasibility score is
in [20, 100], and the status is "optimal" iff score ≥ 80, "moderate" iff
60 ≤ score < 80, and "not-recommended" iff score < 60. -/
theorem feasibility_score_range_status (d : EnergyData) (b : BatteryState) :
    20 ≤ (calculateFeasibilityOf d b).score ∧
    (calculateFeasibilityOf d b).score ≤ 100 ∧
    ((calculateFeasibilityOf d b).status = "optimal" ↔
      80 ≤ (calculateFeasibilityOf d b).score) ∧
    ((calculateFeasibilityOf d b).status = "moderate" ↔
      60 ≤ (calculateFeasibilityOf d b).score ∧ (calculateFeasibilityOf d b).score < 80) ∧
    ((calculateFeasibilityOf d b).status = "not-recommended" ↔
      (calculateFeasibilityOf d b).score < 60) := by
  have hs := calculateFeasibilityOf_score d b
  have hrange : 20 ≤ (calculateFeasibilityOf d b).score ∧
      (calculateFeasibilityOf d b).score ≤ 100 := by
    rcases solarBand_cases d.solar with h1 | h1 | h1 <;>
      rcases windBand_cases d.wind with h2 | h2 | h2 <;>
        rcases batteryBand_cases b with h3 | h3 | h3 <;>
          rcases reliabilityBonus_cases d with h4 | h4 <;>
            constructor <;> omega
  refine ⟨hrange.1, hrange.2, ?_, ?_, ?_⟩
  · rw [calculateFeasibilityOf_status, statusOf_optimal_iff]
  · rw [calculateFeasibilityOf_status, statusOf_moderate_iff]
  · rw [calculateFeasibilityOf_status, statusOf_notRecommended_iff]

/-- Claim C3: whenever solar.average > 6, the solar sub-score is exactly 40,
and the total feasibility score is 40 plus the wind, battery and
reliability contributions, whatever the wind values and battery state. -/
theorem solar_subscore_forty (d : EnergyData) (b : BatteryState)
    (h : d.solar.average > 6) :
    (solarBand d.solar).1 = 40 ∧
    (calculateFeasibilityOf d b).score =
      40 + (windBand d.wind).1 + (batteryBand b).1 + (reliabilityBonus d).1 := by
  have h40 : (solarBand d.solar).1 = 40 := by unfold solarBand; rw [if_pos h]
  exact ⟨h40, by rw [calculateFeasibilityOf_score, h40]⟩

/-- Witness for C3 at a concrete snapshot with solar.average = 7 > 6. -/
theorem solar_subscore_forty_witness :
    (solarBand (EnergyChannel.mk 6 7 8 [])).1 = 40 ∧
    (calculateFeasibilityOf (EnergyData.mk (EnergyChannel.mk 6 7 8 []) (EnergyChannel.mk 6 6 7 []))
        (BatteryState.mk 100 75 75 14)).score =
      40 + (windBand (EnergyChannel.mk 6 6 7 [])).1 +
        (batteryBand (BatteryState.mk 100 75 75 14)).1 +
        (reliabilityBonus (EnergyData.mk (EnergyChannel.mk 6 7 8 []) (EnergyChannel.mk 6 6 7 []))).1 :=
  solar_subscore_forty
    (EnergyData.mk (EnergyChannel.mk 6 7 8 []) (EnergyChannel.mk 6 6 7 []))
    (BatteryState.mk 100 75 75 14) (by norm_num)

/-- The `EnhancedRecommendation` interface of EnerShiftDashboard.tsx. -/
structure EnhancedRecommendation where
  type : String
  priority : String
  message : String
  action : String
  timeframe : String
  impact : ℕ
  confidence : ℕ
deriving DecidableEq

/-- Model of JavaScript `Number.toFixed(0)`: round to the nearest integer
(ties away from zero rounded up) and render. -/
def fmtFixed0 (q : ℚ) : String :=
  toString (Int.floor (q + 1 / 2))

/-- Model of JavaScript `Number.toFixed(1)`: round to one decimal place and
render as `i.d`. -/
def fmtFixed1 (q : ℚ) : String :=
  let n : ℤ := Int.floor (q * 10 + 1 / 2)
  let sign := if n < 0 then "-" else ""
  sign ++ toString (n.natAbs / 10) ++ "." ++ toString (n.natAbs % 10)

/-- The body of `generateRecommendations` (EnerShiftDashboard.tsx lines
337-426) on present data.  The source reads the wall clock
(`new Date().getHours()`); that read is made explicit as the `currentHour`
argument.  Each of the six rules appends zero or one record, in declaration
order. -/
def generateRecommendations (currentHour : ℕ) (d : EnergyData) (b : BatteryState)
    (c : EnergyConsumption) (gridCost : ℚ) : List EnhancedRecommendation :=
  (if d.solar.current > 5 ∧ b.percentage < 50 then
    [{ type := "solar", priority := "critical",
       message := "Excellent solar conditions detected",
       action := "Maximize solar charging immediately",
       timeframe := if 6 ≤ currentHour ∧ currentHour ≤ 18 then "Next 2-4 hours"
                    else "Tomorrow 10AM-2PM",
       impact := 85, confidence := 92 }]
   else []) ++
  (if d.wind.current > 5 ∧ b.percentage < 70 then
    [{ type := "wind", priority := "high",
       message := "Strong wind speeds available",
       action := "Activate wind turbine charging",
       timeframe := "Next 6 hours", impact := 70, confidence := 88 }]
   else []) ++
  (if d.solar.average > 4 ∧ d.wind.average > 3 then
    [{ type := "economic", priority := "medium",
       message := "Potential daily savings: ₹" ++
         fmtFixed0 ((d.solar.average + d.wind.average) * gridCost * 0.8),
       action := "Optimize renewable mix for maximum ROI",
       timeframe := "Daily optimization", impact := 60, confidence := 85 }]
   else []) ++
  (if c.dailyDemand * 0.82 / 1000 > 0.5 then
    [{ type := "environmental", priority := "medium",
       message := "Reduce " ++ fmtFixed1 (c.dailyDemand * 0.82 / 1000) ++ "kg CO2 daily",
       action := "Switch to 100% renewable energy",
       timeframe := "Continuous", impact := 90, confidence := 95 }]
   else []) ++
  (if b.percentage < 20 then
    [{ type := "battery", priority := "critical",
       message := "Critical battery level detected",
       action := "Switch to grid backup immediately",
       timeframe := "Immediate", impact := 100, confidence := 100 }]
   else []) ++
  (if d.solar.current < 3 ∧ d.wind.current < 3 then
    [{ type := "grid", priority := "high",
       message := "Low renewable availability",
       action := "Use grid power during off-peak hours",
       timeframe := "Next 12 hours", impact := 45, confidence := 80 }]
   else [])

/-- The rule table of the specification (§4.1): per rule that fires, the
(category, priority, impact, confidence) tuple, in declaration order. -/
def ruleOutputs (d : EnergyData) (b : BatteryState) (c : EnergyConsumption) :
    List (String × String × ℕ × ℕ) :=
  (if d.solar.current > 5 ∧ b.percentage < 50 then [("solar", "critical", 85, 92)] else []) ++
  (if d.wind.current > 5 ∧ b.percentage < 70 then [("wind", "high", 70, 88)] else []) ++
  (if d.solar.average > 4 ∧ d.wind.average > 3 then [("economic", "medium", 60, 85)] else []) ++
  (if c.dailyDemand * 0.82 / 1000 > 0.5 then [("environmental", "medium", 90, 95)] else []) ++
  (if b.percentage < 20 then [("battery", "critical", 100, 100)] else []) ++
  (if d.solar.current < 3 ∧ d.wind.current < 3 then [("grid", "high", 45, 80)] else [])

/-- Claim C2: the generator emits exactly one recommendation per rule whose
condition holds, with the category/priority/impact/confidence of the rule
table, in rule-declaration order; if no rule fires the output is the empty
sequence. -/
theorem generate_matches_rule_table (currentHour : ℕ) (d : EnergyData)
    (b : BatteryState) (c : EnergyConsumption) (gridCost : ℚ) :
    (generateRecommendations currentHour d b c gridCost).map
        (fun r => (r.type, r.priority, r.impact, r.confidence)) = ruleOutputs d b c ∧
    (¬(d.solar.current > 5 ∧ b.percentage < 50) →
     ¬(d.wind.current > 5 ∧ b.percentage < 70) →
     ¬(d.solar.average > 4 ∧ d.wind.average > 3) →
     ¬(c.dailyDemand * 0.82 / 1000 > 0.5) →
     ¬(b.percentage < 20) →
     ¬(d.solar.current < 3 ∧ d.wind.current < 3) →
     generateRecommendations currentHour d b c gridCost = []) := by
  constructor
  · unfold generateRecommendations ruleOutputs
    split_ifs <;> rfl
  · intro n1 n2 n3 n4 n5 n6
    unfold generateRecommendations
    rw [if_neg n1, if_neg n2, if_neg n3, if_neg n4, if_neg n5, if_neg n6]
    rfl

/-- Witness for C2 at a concrete input: solar and battery rules fire, the
output maps to the rule-table tuples (and the no-rule implication is
instantiated). -/
theorem generate_matches_rule_table_witness :
    (generateRecommendations 10
        (EnergyData.mk (EnergyChannel.mk 6 3 5 []) (EnergyChannel.mk 2 2 3 []))
        (BatteryState.mk 100 10 10 2)
        (EnergyConsumption.mk 25 "18:00-22:00" []) (17 / 2)).map
        (fun r => (r.type, r.priority, r.impact, r.confidence)) =
      ruleOutputs (EnergyData.mk (EnergyChannel.mk 6 3 5 []) (EnergyChannel.mk 2 2 3 []))
        (BatteryState.mk 100 10 10 2) (EnergyConsumption.mk 25 "18:00-22:00" []) ∧
    (¬((6 : ℚ) > 5 ∧ (10 : ℚ) < 50) →
     ¬((2 : ℚ) > 5 ∧ (10 : ℚ) < 70) →
     ¬((3 : ℚ) > 4 ∧ (2 : ℚ) > 3) →
     ¬((25 : ℚ) * 0.82 / 1000 > 0.5) →
     ¬((10 : ℚ) < 20) →
     ¬((6 : ℚ) < 3 ∧ (2 : ℚ) < 3) →
     generateRecommendations 10
        (EnergyData.mk (EnergyChannel.mk 6 3 5 []) (EnergyChannel.mk 2 2 3 []))
        (BatteryState.mk 100 10 10 2)
        (EnergyConsumption.mk 25 "18:00-22:00" []) (17 / 2) = []) :=
  generate_matches_rule_table 10
    (EnergyData.mk (EnergyChannel.mk 6 3 5 []) (EnergyChannel.mk 2 2 3 []))
    (BatteryState.mk 100 10 10 2)
    (EnergyConsumption.mk 25 "18:00-22:00" []) (17 / 2)

/-- Erase the `timeframe` field of a recommendation, keeping every other
field. -/
def stripTimeframe (r : EnhancedRecommendation) : EnhancedRecommendation :=
  { r with timeframe := "" }

/-- Counterexample to C7 as stated: with identical inputs {snapshot,
battery, consumption, gridCost}, two calls made at clock hours 10 and 20
return different outputs — the solar recommendation's `timeframe` is
"Next 2-4 hours" by day and "Tomorrow 10AM-2PM" by night, a dependence on
the hidden wall-clock state. -/
theorem generate_depends_on_clock :
    generateRecommendations 10
        (EnergyData.mk (EnergyChannel.mk 6 3 5 []) (EnergyChannel.mk 2 2 3 []))
        (BatteryState.mk 100 40 40 2)
        (EnergyConsumption.mk (1 / 2) "18:00-22:00" []) (17 / 2) ≠
      generateRecommendations 20
        (EnergyData.mk (EnergyChannel.mk 6 3 5 []) (EnergyChannel.mk 2 2 3 []))
        (BatteryState.mk 100 40 40 2)
        (EnergyConsumption.mk (1 / 2) "18:00-22:00" []) (17 / 2) := by
  decide

/-- Claim C7 amended: up to the solar rule's `timeframe` field (the only
field read from the wall clock), the generator is a pure function of
{snapshot, battery, consumption, gridCost}: two calls with identical inputs
at any two clock hours agree on every other field of every recommendation,
in the same order. -/
theorem generate_pure_up_to_timeframe (h1 h2 : ℕ) (d : EnergyData)
    (b : BatteryState) (c : EnergyConsumption) (gridCost : ℚ) :
    (generateRecommendations h1 d b c gridCost).map stripTimeframe =
      (generateRecommendations h2 d b c gridCost).map stripTimeframe := by
  unfold generateRecommendations
  split_ifs <;> rfl

/-- The body of `calculateEnhancedMetrics` (EnhancedFeatures.tsx lines
87-117): cost analysis and carbon footprint recomputed from the snapshot,
the consumption profile and the previous cost record (whose `gridCost` is
read and preserved). -/
def calculateEnhancedMetrics (d : EnergyData) (c : EnergyConsumption)
    (prevCost : CostAnalysis) : CostAnalysis × CarbonFootprint :=
  let dailyRenewableGeneration := (d.solar.average + d.wind.average) * 0.8
  let dailyGridUsage := max 0 (c.dailyDemand - dailyRenewableGeneration)
  let dailySavings := (c.dailyDemand - dailyGridUsage) * prevCost.gridCost
  let annualSavings := dailySavings * 365
  let systemCost : ℚ := 80000
  let paybackPeriod := if annualSavings > 0 then systemCost / annualSavings else 0
  let currentEmissions := c.dailyDemand * 0.82
  let renewableReduction := dailyRenewableGeneration * 0.82
  let annualCarbonSavings := renewableReduction * 365
  let treesEquivalent := annualCarbonSavings / 22
  ({ prevCost with
      renewableSavings := dailySavings
      annualSavings := annualSavings
      paybackPeriod := paybackPeriod },
   { currentEmissions := currentEmissions
     renewableReduction := renewableReduction
     annualSavings := annualCarbonSavings
     treesEquivalent := treesEquivalent })

/-- Claim C4: paybackPeriod equals systemCost (80000) / annualSavings when
annualSavings > 0, and the sentinel 0 whenever annualSavings ≤ 0; the
computation is total (no exception on degenerate arithmetic). -/
theorem payback_guarded (d : EnergyData) (c : EnergyConsumption)
    (prevCost : CostAnalysis) :
    ((calculateEnhancedMetrics d c prevCost).1.annualSavings > 0 →
      (calculateEnhancedMetrics d c prevCost).1.paybackPeriod =
        80000 / (calculateEnhancedMetrics d c prevCost).1.annualSavings) ∧
    ((calculateEnhancedMetrics d c prevCost).1.annualSavings ≤ 0 →
      (calculateEnhancedMetrics d c prevCost).1.paybackPeriod = 0) := by
  unfold calculateEnhancedMetrics
  dsimp only
  constructor
  · intro h; rw [if_pos h]
  · intro h; rw [if_neg (by exact not_lt_of_le h)]

/-- Witness for C4 at a concrete input with positive annual savings
(dailyDemand 25, averages 5 and 4, gridCost 8.5 → annualSavings 22338). -/
theorem payback_guarded_witness :
    (calculateEnhancedMetrics
        (EnergyData.mk (EnergyChannel.mk 4 5 6 []) (EnergyChannel.mk 3 4 5 []))
        (EnergyConsumption.mk 25 "18:00-22:00" [])
        (CostAnalysis.mk (17 / 2) 0 0 0)).1.annualSavings > 0 ∧
    (calculateEnhancedMetrics
        (EnergyData.mk (EnergyChannel.mk 4 5 6 []) (EnergyChannel.mk 3 4 5 []))
        (EnergyConsumption.mk 25 "18:00-22:00" [])
        (CostAnalysis.mk (17 / 2) 0 0 0)).1.paybackPeriod =
      80000 / (calculateEnhancedMetrics
        (EnergyData.mk (EnergyChannel.mk 4 5 6 []) (EnergyChannel.mk 3 4 5 []))
        (EnergyConsumption.mk 25 "18:00-22:00" [])
        (CostAnalysis.mk (17 / 2) 0 0 0)).1.annualSavings :=
  have hpos : (calculateEnhancedMetrics
      (EnergyData.mk (EnergyChannel.mk 4 5 6 []) (EnergyChannel.mk 3 4 5 []))
      (EnergyConsumption.mk 25 "18:00-22:00" [])
      (CostAnalysis.mk (17 / 2) 0 0 0)).1.annualSavings > 0 := by
    unfold calculateEnhancedMetrics
    dsimp only
    rw [max_eq_right (by norm_num : (0 : ℚ) ≤ 25 - (5 + 4) * 0.8)]
    norm_num
  ⟨hpos,
    (payback_guarded
      (EnergyData.mk (EnergyChannel.mk 4 5 6 []) (EnergyChannel.mk 3 4 5 []))
      (EnergyConsumption.mk 25 "18:00-22:00" [])
      (CostAnalysis.mk (17 / 2) 0 0 0)).1 hpos⟩

/-- Claim C5: the cost projection computes
dailyRenewableGeneration = (solar.average + wind.average) × 0.8,
dailyGridUsage = max(0, dailyDemand − dailyRenewableGeneration),
dailySavings = (dailyDemand − dailyGridUsage) × gridCost and
annualSavings = dailySavings × 365; at dailyDemand 25, averages 5 and 4 and
gridCost 8.5 the daily savings are exactly 61.2. -/
theorem cost_projection_formulas (d : EnergyData) (c : EnergyConsumption)
    (prevCost : CostAnalysis) :
    (calculateEnhancedMetrics d c prevCost).1.renewableSavings =
      (c.dailyDemand -
        max 0 (c.dailyDemand - (d.solar.average + d.wind.average) * 0.8)) *
        prevCost.gridCost ∧
    (calculateEnhancedMetrics d c prevCost).1.annualSavings =
      (calculateEnhancedMetrics d c prevCost).1.renewableSavings * 365 ∧
    (calculateEnhancedMetrics d c prevCost).1.gridCost = prevCost.gridCost ∧
    (calculateEnhancedMetrics
        (EnergyData.mk (EnergyChannel.mk 4 5 6 []) (EnergyChannel.mk 3 4 5 []))
        (EnergyConsumption.mk 25 "18:00-22:00" [])
        (CostAnalysis.mk (17 / 2) 0 0 0)).1.renewableSavings = 306 / 5 := by
  refine ⟨rfl, rfl, rfl, ?_⟩
  unfold calculateEnhancedMetrics
  dsimp only
  rw [max_eq_right (by norm_num : (0 : ℚ) ≤ 25 - (5 + 4) * 0.8)]
  norm_num

/-- Claim C6: the carbon projection computes
currentEmissions = dailyDemand × 0.82,
renewableReduction = dailyRenewableGeneration × 0.82,
annualCarbonSavings = renewableReduction × 365 and
treesEquivalent = annualCarbonSavings / 22. -/
theorem carbon_projection_formulas (d : EnergyData) (c : EnergyConsumption)
    (prevCost : CostAnalysis) :
    (calculateEnhancedMetrics d c prevCost).2.currentEmissions =
      c.dailyDemand * 0.82 ∧
    (calculateEnhancedMetrics d c prevCost).2.renewableReduction =
      (d.solar.average + d.wind.average) * 0.8 * 0.82 ∧
    (calculateEnhancedMetrics d c prevCost).2.annualSavings =
      (calculateEnhancedMetrics d c prevCost).2.renewableReduction * 365 ∧
    (calculateEnhancedMetrics d c prevCost).2.treesEquivalent =
      (calculateEnhancedMetrics d c prevCost).2.annualSavings / 22 :=
  ⟨rfl, rfl, rfl, rfl⟩

/-- The `averageDemand` local of the battery-recompute effect
(EnerShiftDashboard.tsx lines 147-157): half the sum of the solar and wind
averages when a snapshot exists, otherwise the constant 5. -/
def averageDemandOf (ed : Option EnergyData) : ℚ :=
  match ed with
  | some d => (d.solar.average + d.wind.average) / 2
  | none => 5

/-- The runtime divisor `averageDemand || 5` of the battery-recompute
effect: the JavaScript `||` replaces a zero (falsy) average demand by 5. -/
def guardedDemand (ed : Option EnergyData) : ℚ :=
  if averageDemandOf ed = 0 then 5 else averageDemandOf ed

/-- The battery-recompute effect (EnerShiftDashboard.tsx lines 147-157):
`percentage` and `runtime` are recomputed from `capacity`, `currentCharge`
and the optional snapshot; the other fields are spread unchanged. -/
def updateBattery (ed : Option EnergyData) (b : BatteryState) : BatteryState :=
  { b with
      percentage := b.currentCharge / b.capacity * 100
      runtime := b.currentCharge / guardedDemand ed }

/-- Claim C8: the recomputed battery fields satisfy
percentage = currentCharge / capacity × 100 and
runtime = currentCharge / guarded averageDemand, where the average demand
defaults to 5 when no snapshot exists; in particular capacity 100 and
currentCharge 0 with no snapshot give percentage 0 and runtime 0/5 = 0. -/
theorem battery_recompute (ed : Option EnergyData) (b : BatteryState) :
    (updateBattery ed b).percentage = b.currentCharge / b.capacity * 100 ∧
    (updateBattery ed b).runtime = b.currentCharge / guardedDemand ed ∧
    averageDemandOf none = 5 ∧
    (updateBattery none (BatteryState.mk 100 0 75 0)).percentage = 0 ∧
    (updateBattery none (BatteryState.mk 100 0 75 0)).runtime = 0 / 5 :=
  ⟨rfl, rfl, rfl, by norm_num [updateBattery], by norm_num [updateBattery, guardedDemand, averageDemandOf]⟩

/-- Claim C10: even with a snapshot present, the runtime divisor is never
zero — when (solar.average + wind.average) / 2 = 0 the fallback 5 is
substituted — so for non-negative averages the runtime is the well-defined
quotient currentCharge / guardedDemand with a nonzero divisor. -/
theorem runtime_divisor_nonzero (d : EnergyData) (b : BatteryState)
    (h1 : 0 ≤ d.solar.average) (h2 : 0 ≤ d.wind.average) :
    guardedDemand (some d) ≠ 0 ∧
    (updateBattery (some d) b).runtime = b.currentCharge / guardedDemand (some d) := by
  refine ⟨?_, rfl⟩
  unfold guardedDemand
  split_ifs with h
  · norm_num
  · exact h

/-- Witness for C10 at a concrete snapshot with zero averages: the fallback
divisor 5 is substituted and is nonzero. -/
theorem runtime_divisor_nonzero_witness :
    guardedDemand (some (EnergyData.mk (EnergyChannel.mk 0 0 0 []) (EnergyChannel.mk 0 0 0 []))) ≠ 0 ∧
    (updateBattery (some (EnergyData.mk (EnergyChannel.mk 0 0 0 []) (EnergyChannel.mk 0 0 0 [])))
        (BatteryState.mk 100 75 75 0)).runtime =
      (75 : ℚ) / guardedDemand (some (EnergyData.mk (EnergyChannel.mk 0 0 0 []) (EnergyChannel.mk 0 0 0 []))) :=
  runtime_divisor_nonzero
    (EnergyData.mk (EnergyChannel.mk 0 0 0 []) (EnergyChannel.mk 0 0 0 []))
    (BatteryState.mk 100 75 75 0) (by norm_num) (by norm_num)

/-- The `calculateFeasibility` function with its leading
`if (!energyData) return;` guard: on an absent snapshot the previous
feasibility state is left untouched, otherwise it is replaced by a freshly
computed result. -/
def calculateFeasibilityGuarded (ed : Option EnergyData) (b : BatteryState)
    (prev : Option FeasibilityResult) : Option FeasibilityResult :=
  match ed with
  | none => prev
  | some d => some (calculateFeasibilityOf d b)

/-- The scoring effect (EnerShiftDashboard.tsx lines 159-165): the caller
runs `calculateFeasibility` only when both `energyData` and `location` are
present. -/
def scoringEffect (ed : Option EnergyData) (loc : Option LocationData)
    (b : BatteryState) (prev : Option FeasibilityResult) : Option FeasibilityResult :=
  match ed, loc with
  | some _, some _ => calculateFeasibilityGuarded ed b prev
  | _, _ => prev

/-- Claim C9: when the snapshot is absent the scorer does not execute: the
prior feasibility state (possibly none) is returned unchanged, never a
zero or default-valued result. -/
theorem scorer_skipped_without_snapshot (ed : Option EnergyData)
    (loc : Option LocationData) (b : BatteryState)
    (prev : Option FeasibilityResult) (h : ed = none) :
    scoringEffect ed loc b prev = prev ∧
    calculateFeasibilityGuarded ed b prev = prev := by
  subst h
  constructor
  · unfold scoringEffect
    cases loc <;> rfl
  · rfl

/-- Witness for C9: with no snapshot, a present location and no prior
result, the effect leaves the feasibility state at none. -/
theorem scorer_skipped_without_snapshot_witness :
    scoringEffect none (some (LocationData.mk 13 80 "Chennai" "TN" "India"))
        (BatteryState.mk 100 75 75 0) none = none ∧
    calculateFeasibilityGuarded none (BatteryState.mk 100 75 75 0) none = none :=
  scorer_skipped_without_snapshot none
    (some (LocationData.mk 13 80 "Chennai" "TN" "India"))
    (BatteryState.mk 100 75 75 0) none rfl

end EnerShift
